import Mathlib

/-!  Formal model of the face-recognition broadcast server (backend/server.py).

The Python program is embedded shallowly.  External collaborators (the YOLO
detector, the FaceNet embedder, the SVM classifier, the label encoder, the
wall clock, the capture device and the websocket transport) are fields of an
`Env` record, while every piece of in-repository logic (the similarity
computation, the threshold decision, the per-face loop of `process_frame`,
the payload assembly, the connection registry and the fan-out of
`video_stream_loop`) is translated into executable Lean definitions.

Scores.  The cosine similarity dot(p,g)/(‖p‖·‖g‖) of rational vectors is in
general irrational because of the square roots inside the norms.  To keep
every value exact and decidable, a finite real number r is stored as
sign(r)·r², a strictly monotone injection under which the similarity of two
rational vectors becomes the rational value sign(dot)·dot²/(‖p‖²·‖g‖²), and
the comparison with the 0.6 threshold of the source becomes a comparison
with 0.36.  IEEE NaN, which numpy produces for the 0/0 division arising
from a zero-norm operand (this is a RuntimeWarning, not a raised
exception), is a separate constructor; numpy max propagates it, and every
ordered comparison against it is false, exactly as in the source.  -/

namespace FaceServer

/-- Detector bounding box after the map(int, box.xyxy[0]) conversion of the
source: integer corner coordinates in pixels. -/
structure Box where
  x1 : Int
  y1 : Int
  x2 : Int
  y2 : Int
deriving DecidableEq

/-- An embedding vector: one row of the FaceNet output or of the gallery
matrix self.Y. -/
abbrev Emb := List ℚ

/-- Exact model of a numpy float64 similarity value.  The constructor fin s
encodes the finite real r with s = sign(r)·r², a strictly monotone
injection, so order and equality of encoded values agree with the reals;
nan is IEEE NaN, the result of the 0/0 division caused by a zero-norm
operand. -/
inductive Score where
  | nan : Score
  | fin : ℚ → Score
deriving DecidableEq

/-- Encoding of an exactly rational real value as a Score. -/
def encodeReal (q : ℚ) : Score :=
  if q < 0 then Score.fin (-(q * q)) else Score.fin (q * q)

/-- Dot product of two vectors of equal length, as np.dot computes it on
matching shapes. -/
def dot (a b : List ℚ) : ℚ := (List.zipWith (· * ·) a b).sum

/-- Squared euclidean norm.  The source takes np.linalg.norm; the square is
kept so that the value stays rational. -/
def normSq (a : List ℚ) : ℚ := dot a a

/-- The score num/√den2 in the signed-square encoding, where den2 is the
product of the two squared norms.  A zero denominator means the source
divides by 0.0; the numerator is then also zero (a zero norm forces a zero
dot product), so the IEEE result is the NaN of 0/0 - numpy only emits a
RuntimeWarning for it and does not raise. -/
def mkScore (num den2 : ℚ) : Score :=
  if den2 = 0 then Score.nan
  else if num < 0 then Score.fin (-(num * num / den2))
  else Score.fin (num * num / den2)

/-- FaceRecognitionServer.calculate_similarity: cosine similarity of the
probe against every gallery row.  A shape mismatch makes np.dot raise
ValueError, and the except branch of the source then returns
np.zeros(len(embeddings2)); no other operation of the body raises, since
numpy division by zero only warns. -/
def calculate_similarity (e : Emb) (Y : List Emb) : List Score :=
  if Y.all (fun g => decide (g.length = e.length)) then
    Y.map (fun g => mkScore (dot e g) (normSq e * normSq g))
  else
    List.replicate Y.length (Score.fin 0)

/-- Binary np.maximum: NaN propagates through the reduction. -/
def npMax2 (a b : Score) : Score :=
  match a, b with
  | Score.nan, _ => Score.nan
  | _, Score.nan => Score.nan
  | Score.fin x, Score.fin y => Score.fin (max x y)

/-- The np.max reduction over the similarity vector: it raises ValueError
on an empty array (the per-face try block of the source catches that), and
otherwise reduces with np.maximum, so a NaN entry makes the result NaN. -/
def npMax : List Score → Except String Score
  | [] => Except.error ("zero-size array reduction")
  | x :: xs => Except.ok (xs.foldl npMax2 x)

/-- The comparison max_similarity > t of the source.  Every ordered
comparison against NaN is false; on finite values the signed-square
encoding is strictly monotone, so comparing encodings is comparing the
encoded reals. -/
def scoreGt (a b : Score) : Bool :=
  match a, b with
  | Score.fin x, Score.fin y => decide (y < x)
  | _, _ => false

/-- The fixed decision threshold 0.6 of the source, encoded as a Score. -/
def threshold : Score := encodeReal (3 / 5)

/-- One entry of the detected_faces list assembled per face. -/
structure DetectedFace where
  id : String
  name : String
  confidence : Score
  box : List Int
  timestamp : Int
deriving DecidableEq

/-- The status object of the broadcast response. -/
structure Status where
  isDetecting : Bool
  lastUpdated : Int
deriving DecidableEq

/-- The response dictionary built once per cycle in video_stream_loop. -/
structure FramePayload where
  status : Status
  faces : List DetectedFace
deriving DecidableEq

/-- A websocket client handle, identified by its remote address. -/
abbrev Client := Nat

/-- Observable actions of the fan-out part of one cycle.  Each iteration of
the send loop first evaluates json.dumps(response) and then attempts the
send; a send failure is caught, and the ok flag records whether the send
succeeded. -/
inductive Event where
  | serialize : String → Event
  | send : Client → String → Bool → Event
deriving DecidableEq

/-- Environment of one broadcast cycle: the current frame plus every
external collaborator the server consults, each modelled as a function.
Except-valued fields model calls that may raise; an error value is caught,
or not, exactly where the source catches it. -/
structure Env where
  /-- frame height in pixels -/
  H : Nat
  /-- frame width in pixels -/
  W : Nat
  /-- ret value of cap.read(); false is a frame miss -/
  readFrame : Bool
  /-- whether cv2.cvtColor succeeds; the call runs outside every try block -/
  cvtColorOk : Bool
  /-- result of self.model.predict: the boxes of each YOLO result; the call also runs outside every try block -/
  detect : Except String (List (List Box))
  /-- FaceNet embedding self.facenet.embeddings of the resized crop at a given box -/
  embed : Box → Except String Emb
  /-- the gallery matrix self.Y loaded at startup -/
  gallery : List Emb
  /-- result of self.svm_model.predict(embedding)[0] -/
  svm_predict : Emb → Except String Nat
  /-- result of self.encoder.inverse_transform([face_idx])[0] -/
  inverse_transform : Nat → Except String String
  /-- wall clock in milliseconds sampled while a face entry is assembled -/
  faceTime : Int
  /-- wall clock in milliseconds sampled after process_frame returns, used for status.lastUpdated -/
  frameTime : Int
  /-- serialization json.dumps applied to a response -/
  dumps : FramePayload → String
  /-- whether ws.send succeeds for a given client and message -/
  sendOk : Client → String → Bool

/-- Length of the python slice a[i:j] of a sequence of length n: a negative
index counts from the end, then both bounds clamp into [0, n]. -/
def sliceLen (n : Nat) (i j : Int) : Nat :=
  let conv : Int → Int := fun k => if k < 0 then max (k + n) 0 else min k n
  (conv j - conv i).toNat

/-- The test face_img.size == 0 for the crop rgb_img[y1:y2, x1:x2]: the
numpy size is rows·cols·channels, zero exactly when one slice is empty. -/
def cropEmpty (env : Env) (b : Box) : Bool :=
  decide (sliceLen env.H b.y1 b.y2 = 0) || decide (sliceLen env.W b.x1 b.x2 = 0)

/-- The box field of a DetectedFace: corner coordinates translated to the
x, y, width, height form emitted by the source. -/
def boxXYWH (b : Box) : List Int := [b.x1, b.y1, b.x2 - b.x1, b.y2 - b.y1]

/-- The branch on max_similarity > 0.6 of the source: above the threshold
the SVM predicts a class index that the label encoder maps back to a name;
otherwise the sentinel Visitor is used without consulting the classifier.
An error from either classifier call is a caught per-face failure. -/
def resolve_name (env : Env) (e : Emb) (m : Score) : Except String String :=
  if scoreGt m threshold then
    match env.svm_predict e with
    | Except.error err => Except.error err
    | Except.ok i => env.inverse_transform i
  else Except.ok ("Visitor")

/-- Body of the per-box loop of process_frame for one box, given that
nFaces faces were already appended (the id field is
str(len(detected_faces))).  The result none means the box was skipped:
either by the continue statement on an empty crop, or by the per-face
except block catching an error from a later step. -/
def processBox (env : Env) (nFaces : Nat) (b : Box) : Option DetectedFace :=
  if cropEmpty env b then none
  else
    match env.embed b with
    | Except.error _ => none
    | Except.ok e =>
      match npMax (calculate_similarity e env.gallery) with
      | Except.error _ => none
      | Except.ok m =>
        match resolve_name env e m with
        | Except.error _ => none
        | Except.ok nm =>
          some { id := toString nFaces, name := nm, confidence := m,
                 box := boxXYWH b, timestamp := env.faceTime }

/-- Whether a box survives the per-face processing and yields a face. -/
def survives (env : Env) (b : Box) : Bool :=
  (processBox env 0 b).isSome

/-- One iteration of the detected_faces accumulation. -/
def step (env : Env) (acc : List DetectedFace) (b : Box) : List DetectedFace :=
  match processBox env acc.length b with
  | none => acc
  | some f => acc ++ [f]

/-- FaceRecognitionServer.process_frame.  Colour conversion and detection
run outside every try block, so an exception from either propagates to the
caller; the nested loops over results and their boxes visit the boxes of
each result in order and accumulate the detected faces. -/
def process_frame (env : Env) : Except String (List DetectedFace) :=
  if env.cvtColorOk then
    match env.detect with
    | Except.error err => Except.error err
    | Except.ok results =>
      Except.ok (results.foldl (fun acc boxes => boxes.foldl (step env) acc) [])
  else Except.error ("cvtColor failed")

/-- The faces emitted for a list of boxes when nFaces faces were already
emitted: the closed form of the fold inside process_frame. -/
def emitFrom (env : Env) : List Box → Nat → List DetectedFace
  | [], _ => []
  | b :: l, n =>
    match processBox env n b with
    | none => emitFrom env l n
    | some f => f :: emitFrom env l (n + 1)

/-- The response dictionary of video_stream_loop: isDetecting is the
literal True, lastUpdated the clock sampled after processing. -/
def make_response (faces : List DetectedFace) (t : Int) : FramePayload :=
  { status := { isDetecting := true, lastUpdated := t }, faces := faces }

/-- The connection registry self.active_connections with python set
semantics: add is a no-op on an element already present. -/
def register (reg : List Client) (c : Client) : List Client :=
  if c ∈ reg then reg else reg ++ [c]

/-- The set.remove performed by the finally block of handle_connection. -/
def unregister (reg : List Client) (c : Client) : List Client :=
  reg.erase c

/-- The expression list(self.active_connections): a point-in-time copy of
the membership; the fan-out iterates this copy, never the live set. -/
def snapshot (reg : List Client) : List Client := reg

/-- The fan-out of one cycle: for each subscriber of the snapshot, the loop
serializes the response and attempts the send; a send failure is caught and
logged, so every subscriber of the snapshot is attempted and the registry
is never touched here. -/
def broadcast (env : Env) (snap : List Client) (p : FramePayload) : List Event :=
  snap.flatMap (fun ws =>
    [Event.serialize (env.dumps p),
     Event.send ws (env.dumps p) (env.sendOk ws (env.dumps p))])

/-- Clients that received a send attempt, in order. -/
def sendTargets : List Event → List Client
  | [] => []
  | Event.send c _ _ :: es => c :: sendTargets es
  | Event.serialize _ :: es => sendTargets es

/-- Messages carried by the send attempts, in order. -/
def sendMsgs : List Event → List String
  | [] => []
  | Event.send _ msg _ :: es => msg :: sendMsgs es
  | Event.serialize _ :: es => sendMsgs es

/-- Number of json.dumps evaluations recorded in a trace. -/
def serializeCount : List Event → Nat
  | [] => 0
  | Event.serialize _ :: es => serializeCount es + 1
  | Event.send _ _ _ :: es => serializeCount es

/-- Outcome of one iteration of the while loop of video_stream_loop. -/
inductive CycleResult where
  | skipped : CycleResult
  | published : FramePayload → List Event → CycleResult
deriving DecidableEq

/-- One iteration of the while loop of video_stream_loop: a read miss logs
a warning and continues; process_frame runs with no surrounding try, so an
error from it escapes the loop; otherwise the response is built and fanned
out over a snapshot of the registry, which the loop body never mutates. -/
def video_cycle (env : Env) (reg : List Client) :
    Except String (CycleResult × List Client) :=
  if env.readFrame then
    match process_frame env with
    | Except.error err => Except.error err
    | Except.ok faces =>
      let response := make_response faces env.frameTime
      Except.ok (CycleResult.published response
        (broadcast env (snapshot reg) response), reg)
  else Except.ok (CycleResult.skipped, reg)

/-- An empty broadcast payload used for concrete evaluations. -/
def payload0 : FramePayload :=
  { status := { isDetecting := true, lastUpdated := 0 }, faces := [] }

/-- A base environment for concrete evaluations; individual checks override
the fields they exercise. -/
def baseEnv : Env where
  H := 100
  W := 100
  readFrame := true
  cvtColorOk := true
  detect := Except.ok []
  embed := fun _ => Except.error ("embedding failed")
  gallery := []
  svm_predict := fun _ => Except.error ("svm failed")
  inverse_transform := fun _ => Except.error ("encoder failed")
  faceTime := 111
  frameTime := 222
  dumps := fun p => toString p.faces.length
  sendOk := fun _ _ => true

/-- A detector box well inside a 100 by 100 frame. -/
def box1 : Box := { x1 := 10, y1 := 20, x2 := 30, y2 := 40 }

/-- Environment with one face whose probe embedding [1,0] has cosine
similarity 4/5 to the single gallery row [4,3]; the classifier resolves
the identity to alice. -/
def env1a : Env :=
  { baseEnv with
    detect := Except.ok [[box1]],
    embed := fun _ => Except.ok [1, 0],
    gallery := [[4, 3]],
    svm_predict := fun _ => Except.ok 0,
    inverse_transform := fun _ => Except.ok ("alice") }

/-- Environment with one face whose probe embedding [0,1] is orthogonal to
the single gallery row [1,0], so the maximum similarity is 0. -/
def env1b : Env :=
  { baseEnv with
    detect := Except.ok [[box1]],
    embed := fun _ => Except.ok [0, 1],
    gallery := [[1, 0]] }

/-- Environment whose probe embedding is the zero vector: the norm of the
probe is zero and every similarity division is 0/0. -/
def envC2 : Env :=
  { baseEnv with
    detect := Except.ok [[box1]],
    embed := fun _ => Except.ok [0, 0],
    gallery := [[1, 0]] }

/-- First successfully processed box of the three-box frame. -/
def boxG1 : Box := { x1 := 0, y1 := 0, x2 := 50, y2 := 50 }

/-- Middle box with x1 = x2: its crop is empty, so it is skipped. -/
def boxB3 : Box := { x1 := 5, y1 := 5, x2 := 5, y2 := 50 }

/-- Last successfully processed box of the three-box frame. -/
def boxG2 : Box := { x1 := 10, y1 := 10, x2 := 60, y2 := 60 }

/-- Environment detecting three boxes of which the middle one has an empty
crop; the embeddings are orthogonal to the gallery, so both surviving
faces are emitted as Visitor. -/
def env3 : Env :=
  { baseEnv with
    detect := Except.ok [[boxG1, boxB3, boxG2]],
    embed := fun _ => Except.ok [0, 1],
    gallery := [[1, 0]] }

/-- The two faces env3 emits: ids 0 and 1 even though three boxes were
detected. -/
def faces3 : List DetectedFace :=
  [{ id := toString 0, name := "Visitor", confidence := Score.fin 0,
     box := boxXYWH boxG1, timestamp := 111 },
   { id := toString 1, name := "Visitor", confidence := Score.fin 0,
     box := boxXYWH boxG2, timestamp := 111 }]

/-- Environment whose detector call raises: the exception is not caught by
any handler inside the loop. -/
def envC4 : Env := { baseEnv with detect := Except.error ("predict failed") }

/-- Environment whose frame read misses (ret is false). -/
def envSkip : Env := { baseEnv with readFrame := false }

/-- Whether a box survives the per-face processing does not depend on the
number of faces already emitted: only the id string does. -/
theorem processBox_eq (env : Env) (n : Nat) (b : Box) :
    processBox env n b =
      Option.map (fun f => { f with id := toString n }) (processBox env 0 b) := by
  unfold processBox
  split
  · rfl
  split
  · rfl
  split
  · rfl
  split
  · rfl
  rfl

/-- A box is skipped independently of the running face count. -/
theorem processBox_none_iff (env : Env) (n : Nat) (b : Box) :
    processBox env n b = none ↔ processBox env 0 b = none := by
  rw [processBox_eq env n b]
  exact Option.map_eq_none'

/-- An emitted face carries the translated box of its detector box and the
decimal string of the running face count as id. -/
theorem processBox_some_box_id (env : Env) (n : Nat) (b : Box) (f : DetectedFace)
    (h : processBox env n b = some f) : f.box = boxXYWH b ∧ f.id = toString n := by
  unfold processBox at h
  split at h
  · exact absurd h (by simp)
  split at h
  · exact absurd h (by simp)
  split at h
  · exact absurd h (by simp)
  split at h
  · exact absurd h (by simp)
  cases h
  exact ⟨rfl, rfl⟩

/-- Unfolding equation of step when the box is skipped. -/
theorem step_none (env : Env) (acc : List DetectedFace) (b : Box)
    (h : processBox env acc.length b = none) : step env acc b = acc := by
  unfold step
  rw [h]

/-- Unfolding equation of step when the box yields a face. -/
theorem step_some (env : Env) (acc : List DetectedFace) (b : Box) (f : DetectedFace)
    (h : processBox env acc.length b = some f) : step env acc b = acc ++ [f] := by
  unfold step
  rw [h]

/-- Unfolding equation of emitFrom when the head box is skipped. -/
theorem emitFrom_cons_none (env : Env) (b : Box) (l : List Box) (n : Nat)
    (h : processBox env n b = none) : emitFrom env (b :: l) n = emitFrom env l n := by
  simp only [emitFrom, h]

/-- Unfolding equation of emitFrom when the head box yields a face. -/
theorem emitFrom_cons_some (env : Env) (b : Box) (l : List Box) (n : Nat) (f : DetectedFace)
    (h : processBox env n b = some f) :
    emitFrom env (b :: l) n = f :: emitFrom env l (n + 1) := by
  simp only [emitFrom, h]

/-- The fold of process_frame in closed form. -/
theorem foldl_step_eq (env : Env) :
    ∀ (l : List Box) (acc : List DetectedFace),
      l.foldl (step env) acc = acc ++ emitFrom env l acc.length := by
  intro l
  induction l with
  | nil => intro acc; simp [emitFrom]
  | cons b l ih =>
    intro acc
    rw [List.foldl_cons]
    cases hb : processBox env acc.length b with
    | none => rw [step_none env acc b hb, ih acc, emitFrom_cons_none env b l acc.length hb]
    | some f =>
      rw [step_some env acc b f hb, ih (acc ++ [f]),
        emitFrom_cons_some env b l acc.length f hb]
      simp [List.append_assoc]

/-- When colour conversion and detection succeed, process_frame returns the
faces emitted for the concatenated box list, numbered from zero. -/
theorem process_frame_ok (env : Env) (res : List (List Box))
    (hc : env.cvtColorOk = true) (hd : env.detect = Except.ok res) :
    process_frame env = Except.ok (emitFrom env res.flatten 0) := by
  unfold process_frame
  rw [hc, hd, if_pos rfl]
  dsimp only
  rw [← List.foldl_flatten (step env) ([] : List DetectedFace) res,
    foldl_step_eq env res.flatten []]
  simp

/-- The emitted boxes are the translated boxes of the surviving detector
boxes, in detector iteration order. -/
theorem emitFrom_boxes (env : Env) :
    ∀ (l : List Box) (n : Nat),
      (emitFrom env l n).map (fun f => f.box)
        = (l.filter (survives env)).map boxXYWH := by
  intro l
  induction l with
  | nil => intro n; simp [emitFrom]
  | cons b l ih =>
    intro n
    cases hb : processBox env n b with
    | none =>
      have hb0 : survives env b = false := by
        unfold survives
        rw [(processBox_none_iff env n b).mp hb]
        rfl
      rw [emitFrom_cons_none env b l n hb, List.filter_cons_of_neg (by simp [hb0])]
      exact ih n
    | some f =>
      have hb0 : survives env b = true := by
        unfold survives
        cases h0 : processBox env 0 b with
        | none => rw [(processBox_none_iff env n b).mpr h0] at hb; exact absurd hb (by simp)
        | some g => rfl
      rw [emitFrom_cons_some env b l n f hb, List.filter_cons_of_pos hb0]
      simp only [List.map_cons]
      rw [ih (n + 1), (processBox_some_box_id env n b f hb).1]

/-- The id of the face at position i of an emission starting at count n is
the decimal string of n + i. -/
theorem emitFrom_id (env : Env) :
    ∀ (l : List Box) (n i : Nat) (f : DetectedFace),
      (emitFrom env l n)[i]? = some f → f.id = toString (n + i) := by
  intro l
  induction l with
  | nil => intro n i f h; simp [emitFrom] at h
  | cons b l ih =>
    intro n i f h
    cases hb : processBox env n b with
    | none =>
      rw [emitFrom_cons_none env b l n hb] at h
      exact ih n i f h
    | some g =>
      rw [emitFrom_cons_some env b l n g hb] at h
      cases i with
      | zero =>
        simp at h
        rw [← h, (processBox_some_box_id env n b g hb).2]
        exact congrArg toString (by omega)
      | succ i =>
        simp only [List.getElem?_cons_succ] at h
        rw [ih (n + 1) i f h]
        exact congrArg toString (by omega)

/-- Every emitted face has the translated box of some detected box. -/
theorem emitFrom_mem_box (env : Env) :
    ∀ (l : List Box) (n : Nat) (f : DetectedFace), f ∈ emitFrom env l n →
      ∃ bx, bx ∈ l ∧ f.box = boxXYWH bx := by
  intro l
  induction l with
  | nil => intro n f h; simp [emitFrom] at h
  | cons b l ih =>
    intro n f h
    cases hb : processBox env n b with
    | none =>
      rw [emitFrom_cons_none env b l n hb] at h
      obtain ⟨bx, hbx, hfb⟩ := ih n f h
      exact ⟨bx, List.mem_cons_of_mem b hbx, hfb⟩
    | some g =>
      rw [emitFrom_cons_some env b l n g hb] at h
      rcases List.mem_cons.mp h with hfg | hmem
      · exact ⟨b, List.mem_cons_self b l, hfg ▸ (processBox_some_box_id env n b g hb).1⟩
      · obtain ⟨bx, hbx, hfb⟩ := ih (n + 1) f hmem
        exact ⟨bx, List.mem_cons_of_mem b hbx, hfb⟩

/-- With a zero-norm probe of matching dimension, every cosine similarity
is the NaN of the division 0/0. -/
theorem calc_sim_zero (e : Emb) (Y : List Emb) (hz : normSq e = 0)
    (hd : ∀ g ∈ Y, g.length = e.length) :
    calculate_similarity e Y = List.replicate Y.length Score.nan := by
  unfold calculate_similarity
  have hall : Y.all (fun g => decide (g.length = e.length)) = true := by
    rw [List.all_eq_true]
    intro g hg
    exact decide_eq_true (hd g hg)
  rw [hall, if_pos rfl]
  have hlen : (Y.map (fun g => mkScore (dot e g) (normSq e * normSq g))).length = Y.length := by
    simp
  rw [← hlen]
  apply List.eq_replicate_length.mpr
  intro s hs
  rw [List.mem_map] at hs
  obtain ⟨g, hg, rfl⟩ := hs
  unfold mkScore
  rw [hz, zero_mul]
  simp

/-- Folding np.maximum from NaN stays NaN. -/
theorem foldl_npMax2_nan : ∀ l : List Score, l.foldl npMax2 Score.nan = Score.nan := by
  intro l
  induction l with
  | nil => rfl
  | cons x l ih =>
    rw [List.foldl_cons]
    have hx : npMax2 Score.nan x = Score.nan := by cases x <;> rfl
    rw [hx]
    exact ih

/-- The np.max of a nonempty all-NaN vector is NaN. -/
theorem npMax_replicate_nan (k : Nat) (hk : k ≠ 0) :
    npMax (List.replicate k Score.nan) = Except.ok Score.nan := by
  cases k with
  | zero => exact absurd rfl hk
  | succ k =>
    rw [List.replicate_succ]
    simp only [npMax]
    rw [foldl_npMax2_nan]

/-- sendTargets distributes over trace concatenation. -/
theorem sendTargets_append (a b : List Event) :
    sendTargets (a ++ b) = sendTargets a ++ sendTargets b := by
  induction a with
  | nil => rfl
  | cons e a ih => cases e <;> simp [sendTargets, ih]

/-- sendMsgs distributes over trace concatenation. -/
theorem sendMsgs_append (a b : List Event) :
    sendMsgs (a ++ b) = sendMsgs a ++ sendMsgs b := by
  induction a with
  | nil => rfl
  | cons e a ih => cases e <;> simp [sendMsgs, ih]

/-- serializeCount adds up over trace concatenation. -/
theorem serializeCount_append (a b : List Event) :
    serializeCount (a ++ b) = serializeCount a + serializeCount b := by
  induction a with
  | nil => simp [serializeCount]
  | cons e a ih =>
    cases e with
    | serialize m =>
      simp [serializeCount, ih]
      omega
    | send c m o => simp [serializeCount, ih]

/-- The fan-out attempts a send to exactly the subscribers of the snapshot,
in order, whatever the send outcomes are. -/
theorem sendTargets_broadcast (env : Env) (snap : List Client) (p : FramePayload) :
    sendTargets (broadcast env snap p) = snap := by
  induction snap with
  | nil => rfl
  | cons c cs ih =>
    unfold broadcast at ih ⊢
    rw [List.flatMap_cons, sendTargets_append, ih]
    rfl

/-- Every send of one cycle carries the same serialized message. -/
theorem sendMsgs_broadcast (env : Env) (snap : List Client) (p : FramePayload) :
    sendMsgs (broadcast env snap p) = List.replicate snap.length (env.dumps p) := by
  induction snap with
  | nil => rfl
  | cons c cs ih =>
    unfold broadcast at ih ⊢
    rw [List.flatMap_cons, sendMsgs_append, ih]
    simp [sendMsgs, List.replicate_succ]

/-- The send loop evaluates json.dumps once per subscriber of the snapshot. -/
theorem serializeCount_broadcast (env : Env) (snap : List Client) (p : FramePayload) :
    serializeCount (broadcast env snap p) = snap.length := by
  induction snap with
  | nil => rfl
  | cons c cs ih =>
    unfold broadcast at ih ⊢
    rw [List.flatMap_cons, serializeCount_append, ih]
    simp [serializeCount]
    omega

/-- C1: for every probe embedding processed in a frame, when the maximum
cosine similarity against the gallery exceeds 0.6 the emitted face is
named by the classifier (the SVM class index mapped back through the label
encoder), and otherwise it is the sentinel Visitor; in both cases the
emitted confidence is the maximum cosine similarity itself, never a score
of the classifier. -/
theorem C1_decision_policy (env : Env) (n : Nat) (b : Box) (e : Emb) (m : Score) (nm : String)
    (hcrop : cropEmpty env b = false)
    (hembed : env.embed b = Except.ok e)
    (hmax : npMax (calculate_similarity e env.gallery) = Except.ok m)
    (hname : resolve_name env e m = Except.ok nm) :
    processBox env n b =
      some { id := toString n, name := nm, confidence := m,
             box := boxXYWH b, timestamp := env.faceTime }
    ∧ (scoreGt m threshold = true →
        Except.bind (env.svm_predict e) env.inverse_transform = Except.ok nm)
    ∧ (scoreGt m threshold = false → nm = "Visitor") := by
  refine ⟨?_, ?_, ?_⟩
  · simp [processBox, hcrop, hembed, hmax, hname]
  · intro hgt
    unfold resolve_name at hname
    rw [hgt, if_pos rfl] at hname
    cases hs : env.svm_predict e with
    | error err => rw [hs] at hname; exact absurd hname (by simp)
    | ok j => rw [hs] at hname; simpa [Except.bind] using hname
  · intro hgt
    unfold resolve_name at hname
    rw [hgt] at hname
    simp at hname
    exact hname.symm

/-- Witness for C1 at concrete inputs: one probe above the threshold is
resolved to alice by the classifier, one below it is emitted as Visitor;
both confidences are the maximum cosine similarity. -/
theorem C1_witness :
    (processBox env1a 0 box1 =
       some { id := toString 0, name := "alice",
              confidence := Score.fin (16 / 25), box := boxXYWH box1,
              timestamp := env1a.faceTime }
     ∧ (scoreGt (Score.fin (16 / 25)) threshold = true →
         Except.bind (env1a.svm_predict [1, 0]) env1a.inverse_transform = Except.ok ("alice"))
     ∧ (scoreGt (Score.fin (16 / 25)) threshold = false → "alice" = "Visitor"))
    ∧ (processBox env1b 0 box1 =
       some { id := toString 0, name := "Visitor",
              confidence := Score.fin 0, box := boxXYWH box1,
              timestamp := env1b.faceTime }
     ∧ (scoreGt (Score.fin 0) threshold = true →
         Except.bind (env1b.svm_predict [0, 1]) env1b.inverse_transform = Except.ok ("Visitor"))
     ∧ (scoreGt (Score.fin 0) threshold = false → "Visitor" = "Visitor")) :=
  ⟨C1_decision_policy env1a 0 box1 [1, 0] (Score.fin (16 / 25)) "alice"
      (by decide) rfl
      (by norm_num [calculate_similarity, env1a, baseEnv, dot, normSq, mkScore, npMax, npMax2])
      (by norm_num [resolve_name, scoreGt, threshold, encodeReal, env1a, baseEnv]),
   C1_decision_policy env1b 0 box1 [0, 1] (Score.fin 0) "Visitor"
      (by decide) rfl
      (by norm_num [calculate_similarity, env1b, baseEnv, dot, normSq, mkScore, npMax, npMax2])
      (by norm_num [resolve_name, scoreGt, threshold, encodeReal, env1b, baseEnv])⟩

/-- C2 counterexample: with a zero-norm probe the similarity loop divides
0 by 0, so the emitted confidence is NaN, not the score 0 the claim
states (the except branch is never taken, since numpy division by zero
only warns). -/
theorem C2_counterexample :
    processBox envC2 0 box1 =
      some { id := toString 0, name := "Visitor", confidence := Score.nan,
             box := boxXYWH box1, timestamp := envC2.faceTime }
    ∧ Score.nan ≠ encodeReal 0 := by
  constructor
  · norm_num [processBox, envC2, baseEnv, box1, cropEmpty, sliceLen, calculate_similarity,
      dot, normSq, mkScore, npMax, npMax2, resolve_name, scoreGt, threshold, encodeReal,
      boxXYWH]
  · have h0 : encodeReal 0 = Score.fin 0 := by norm_num [encodeReal]
    rw [h0]
    exact fun h => Score.noConfusion h

/-- C2 (amended): a zero-norm probe of matching dimension never raises:
every similarity entry is the NaN of the 0/0 division, the maximum is NaN,
the comparison of NaN with 0.6 is false, and the face is still emitted as
Visitor - but its confidence is NaN rather than 0. -/
theorem C2_zero_norm_nan (env : Env) (n : Nat) (b : Box) (e : Emb)
    (hcrop : cropEmpty env b = false)
    (hembed : env.embed b = Except.ok e)
    (hzero : normSq e = 0)
    (hne : env.gallery ≠ [])
    (hdims : ∀ g ∈ env.gallery, g.length = e.length) :
    processBox env n b =
      some { id := toString n, name := "Visitor", confidence := Score.nan,
             box := boxXYWH b, timestamp := env.faceTime } := by
  have hsim := calc_sim_zero e env.gallery hzero hdims
  have hm : npMax (calculate_similarity e env.gallery) = Except.ok Score.nan := by
    rw [hsim]
    exact npMax_replicate_nan env.gallery.length
      (fun h => hne (List.length_eq_zero.mp h))
  simp [processBox, hcrop, hembed, hm, resolve_name, scoreGt]

/-- Witness for the amended C2 at a concrete zero-norm probe. -/
theorem C2_witness :
    processBox envC2 0 box1 =
      some { id := toString 0, name := "Visitor", confidence := Score.nan,
             box := boxXYWH box1, timestamp := envC2.faceTime } :=
  C2_zero_norm_nan envC2 0 box1 [0, 0] (by decide) rfl
    (by norm_num [normSq, dot]) (by decide) (by decide)

/-- C3: when exactly one box among the detected ones fails per-face
processing, the frame is not aborted: process_frame still succeeds, the
payload holds exactly N-1 faces, and the emitted boxes are the translated
boxes of the surviving detections in detector iteration order. -/
theorem C3_skip_one_face (env : Env) (res : List (List Box)) (l1 l2 : List Box) (bad : Box)
    (faces : List DetectedFace)
    (hc : env.cvtColorOk = true)
    (hd : env.detect = Except.ok res)
    (hjoin : res.flatten = l1 ++ bad :: l2)
    (hgood : ∀ x ∈ l1 ++ l2, survives env x = true)
    (hbad : survives env bad = false)
    (hpf : process_frame env = Except.ok faces) :
    faces.length = l1.length + l2.length
    ∧ faces.map (fun f => f.box) = (l1 ++ l2).map boxXYWH := by
  have h1 := process_frame_ok env res hc hd
  rw [hpf] at h1
  have h2 : faces = emitFrom env res.flatten 0 := by injection h1
  subst h2
  have hfilter : res.flatten.filter (survives env) = l1 ++ l2 := by
    rw [hjoin, List.filter_append, List.filter_cons_of_neg (by simp [hbad]),
      List.filter_eq_self.mpr (fun x hx => hgood x (List.mem_append_left _ hx)),
      List.filter_eq_self.mpr (fun x hx => hgood x (List.mem_append_right _ hx))]
  have hboxes := emitFrom_boxes env res.flatten 0
  rw [hfilter] at hboxes
  constructor
  · have hlen := congrArg List.length hboxes
    simpa using hlen
  · exact hboxes

/-- Witness for C3: three detected boxes, the middle one with an empty
crop, yield a two-face payload preserving detector order. -/
theorem C3_witness :
    faces3.length = [boxG1].length + [boxG2].length
    ∧ faces3.map (fun f => f.box) = ([boxG1] ++ [boxG2]).map boxXYWH :=
  C3_skip_one_face env3 [[boxG1, boxB3, boxG2]] [boxG1] [boxG2] boxB3 faces3
    rfl rfl (by decide)
    (by
      intro x hx
      norm_num [survives, processBox, env3, baseEnv, boxG1, boxG2, cropEmpty, sliceLen,
        calculate_similarity, dot, normSq, mkScore, npMax, npMax2, resolve_name,
        scoreGt, threshold, encodeReal] at hx ⊢
      rcases hx with rfl | rfl <;>
        norm_num [survives, processBox, env3, baseEnv, boxG1, boxG2, cropEmpty, sliceLen,
          calculate_similarity, dot, normSq, mkScore, npMax, npMax2, resolve_name,
          scoreGt, threshold, encodeReal])
    (by norm_num [survives, processBox, env3, baseEnv, boxB3, cropEmpty, sliceLen])
    (by norm_num [process_frame, env3, baseEnv, step, processBox, boxG1, boxB3, boxG2,
      faces3, cropEmpty, sliceLen, calculate_similarity, dot, normSq, mkScore, npMax,
      npMax2, resolve_name, scoreGt, threshold, encodeReal, boxXYWH])

/-- C4 counterexample: a detector failure, an error below the Fatal tier
arising inside the per-cycle processing, is not caught by any handler
inside the loop: the cycle aborts with the error instead of continuing. -/
theorem C4_counterexample :
    video_cycle envC4 [] = Except.error ("predict failed") := by
  norm_num [video_cycle, envC4, baseEnv, process_frame]

/-- C4 (amended): a frame-read miss and all per-face and per-subscriber
failures are absorbed and the cycle completes; only the frame-level steps
(colour conversion, detector inference) can abort it. -/
theorem C4_cycle_completion :
    (∀ (env : Env) (reg : List Client), env.readFrame = false →
      video_cycle env reg = Except.ok (CycleResult.skipped, reg))
    ∧ (∀ (env : Env) (reg : List Client) (res : List (List Box)),
        env.readFrame = true → env.cvtColorOk = true → env.detect = Except.ok res →
        ∃ p ev, video_cycle env reg = Except.ok (CycleResult.published p ev, reg)) := by
  constructor
  · intro env reg hr
    unfold video_cycle
    rw [hr]
    simp
  · intro env reg res hr hc hd
    have hpf := process_frame_ok env res hc hd
    refine ⟨make_response (emitFrom env res.flatten 0) env.frameTime,
      broadcast env (snapshot reg)
        (make_response (emitFrom env res.flatten 0) env.frameTime), ?_⟩
    unfold video_cycle
    rw [hr, if_pos rfl, hpf]

/-- Witness for the amended C4: a read miss skips the cycle, a clean frame
publishes. -/
theorem C4_witness :
    video_cycle envSkip [7] = Except.ok (CycleResult.skipped, [7])
    ∧ ∃ p ev, video_cycle baseEnv [7] = Except.ok (CycleResult.published p ev, [7]) :=
  ⟨C4_cycle_completion.1 envSkip [7] rfl,
   C4_cycle_completion.2 baseEnv [7] [] rfl rfl rfl⟩

/-- C5: the fan-out iterates a point-in-time copy of the registry: after
registering a, b, c and unregistering b the publish addresses exactly a
and c, while a snapshot taken before the unregister still contains b and a
publish over it still addresses all three. -/
theorem C5_snapshot_copy (env : Env) (p : FramePayload) (a b c : Client)
    (hab : a ≠ b) (hac : a ≠ c) (hbc : b ≠ c) :
    sendTargets (broadcast env
        (snapshot (unregister (register (register (register [] a) b) c) b)) p) = [a, c]
    ∧ b ∈ snapshot (register (register (register [] a) b) c)
    ∧ sendTargets (broadcast env
        (snapshot (register (register (register [] a) b) c)) p) = [a, b, c] := by
  have h1 : register ([] : List Client) a = [a] := by simp [register]
  have h2 : register [a] b = [a, b] := by simp [register, Ne.symm hab]
  have h3 : register [a, b] c = [a, b, c] := by simp [register, Ne.symm hac, Ne.symm hbc]
  have h4 : unregister [a, b, c] b = [a, c] := by
    simp [unregister, List.erase_cons, hab]
  refine ⟨?_, ?_, ?_⟩
  · rw [h1, h2, h3, h4]
    exact sendTargets_broadcast env (snapshot [a, c]) p
  · rw [h1, h2, h3]
    simp [snapshot]
  · rw [h1, h2, h3]
    exact sendTargets_broadcast env (snapshot [a, b, c]) p

/-- Witness for C5 with the three concrete subscribers 0, 1 and 2. -/
theorem C5_witness :
    sendTargets (broadcast baseEnv
        (snapshot (unregister (register (register (register [] 0) 1) 2) 1)) payload0) = [0, 2]
    ∧ 1 ∈ snapshot (register (register (register [] 0) 1) 2)
    ∧ sendTargets (broadcast baseEnv
        (snapshot (register (register (register [] 0) 1) 2)) payload0) = [0, 1, 2] :=
  C5_snapshot_copy baseEnv payload0 0 1 2 (by decide) (by decide) (by decide)

/-- C6: every subscriber of the snapshot receives a send attempt whatever
the outcomes of the other sends are, and a completed cycle leaves the
registry exactly as it was. -/
theorem C6_send_isolation (env : Env) (reg : List Client) (p : FramePayload) :
    sendTargets (broadcast env (snapshot reg) p) = snapshot reg
    ∧ ∀ out, video_cycle env reg = Except.ok out → out.2 = reg := by
  constructor
  · exact sendTargets_broadcast env (snapshot reg) p
  · intro out h
    unfold video_cycle at h
    by_cases hr : env.readFrame = true
    · rw [if_pos hr] at h
      cases hpf : process_frame env with
      | error err => rw [hpf] at h; exact absurd h (by simp)
      | ok faces =>
        rw [hpf] at h
        simp only [Except.ok.injEq] at h
        rw [← h]
    · rw [if_neg hr] at h
      simp only [Except.ok.injEq] at h
      rw [← h]

/-- Witness for C6 at a concrete one-element registry and a skipped
cycle. -/
theorem C6_witness :
    sendTargets (broadcast envSkip (snapshot [5]) payload0) = snapshot [5]
    ∧ (CycleResult.skipped, ([5] : List Client)).2 = [5] :=
  ⟨(C6_send_isolation envSkip [5] payload0).1,
   (C6_send_isolation envSkip [5] payload0).2 (CycleResult.skipped, [5]) rfl⟩

/-- C7 counterexample: with two subscribers the loop evaluates json.dumps
twice in one cycle, so the payload is not serialized exactly once. -/
theorem C7_counterexample :
    serializeCount (broadcast baseEnv (snapshot [0, 1]) payload0) = 2
    ∧ (2 : Nat) ≠ 1 := by
  constructor
  · decide
  · decide

/-- C7 (amended): the payload is serialized once per subscriber of the
snapshot, not once per cycle; serialization is deterministic, so every
send of the cycle carries identical bytes. -/
theorem C7_same_bytes (env : Env) (snap : List Client) (p : FramePayload) :
    serializeCount (broadcast env snap p) = snap.length
    ∧ sendMsgs (broadcast env snap p) = List.replicate snap.length (env.dumps p) :=
  ⟨serializeCount_broadcast env snap p, sendMsgs_broadcast env snap p⟩

/-- C8: every published payload reports isDetecting true and lastUpdated
equal to the wall clock sampled when the frame finished processing, and a
frame with zero detections still publishes a payload with an empty faces
list. -/
theorem C8_payload_status (env : Env) (reg : List Client) (res : List (List Box))
    (hr : env.readFrame = true) (hc : env.cvtColorOk = true)
    (hd : env.detect = Except.ok res) :
    ∃ p ev, video_cycle env reg = Except.ok (CycleResult.published p ev, reg)
      ∧ p.status.isDetecting = true
      ∧ p.status.lastUpdated = env.frameTime
      ∧ (res.flatten = [] → p.faces = []) := by
  have hpf := process_frame_ok env res hc hd
  refine ⟨make_response (emitFrom env res.flatten 0) env.frameTime,
    broadcast env (snapshot reg)
      (make_response (emitFrom env res.flatten 0) env.frameTime),
    ?_, rfl, rfl, ?_⟩
  · unfold video_cycle
    rw [if_pos hr, hpf]
  · intro h
    simp [make_response, h, emitFrom]

/-- Witness for C8 at a concrete environment detecting no faces. -/
theorem C8_witness :
    ∃ p ev, video_cycle baseEnv [] = Except.ok (CycleResult.published p ev, [])
      ∧ p.status.isDetecting = true
      ∧ p.status.lastUpdated = baseEnv.frameTime
      ∧ (([] : List (List Box)).flatten = [] → p.faces = []) :=
  C8_payload_status baseEnv [] [] rfl rfl rfl

/-- C9: every emitted face carries the translated [x, y, width, height]
form of a detected box, and end to end a single detected face whose
maximum cosine similarity exceeds the threshold and whose classifier
resolution is alice is emitted with name alice, confidence equal to that
maximum similarity, and the translated box. -/
theorem C9_box_translation :
    (∀ (env : Env) (res : List (List Box)) (faces : List DetectedFace) (f : DetectedFace),
      env.cvtColorOk = true → env.detect = Except.ok res →
      process_frame env = Except.ok faces → f ∈ faces →
      ∃ bx, bx ∈ res.flatten ∧ f.box = boxXYWH bx)
    ∧ (∀ (env : Env) (b : Box) (e : Emb) (m : Score) (i : Nat),
        env.cvtColorOk = true → env.detect = Except.ok [[b]] →
        cropEmpty env b = false → env.embed b = Except.ok e →
        npMax (calculate_similarity e env.gallery) = Except.ok m →
        scoreGt m threshold = true →
        env.svm_predict e = Except.ok i →
        env.inverse_transform i = Except.ok ("alice") →
        process_frame env = Except.ok
          [{ id := toString 0, name := "alice", confidence := m,
             box := boxXYWH b, timestamp := env.faceTime }]) := by
  constructor
  · intro env res faces f hc hd hpf hmem
    have h1 := process_frame_ok env res hc hd
    rw [hpf] at h1
    have h2 : faces = emitFrom env res.flatten 0 := by injection h1
    subst h2
    exact emitFrom_mem_box env res.flatten 0 f hmem
  · intro env b e m i hc hd hcrop hembed hmax hgt hsvm hinv
    have h1 := process_frame_ok env [[b]] hc hd
    rw [h1]
    have hb : processBox env 0 b =
        some { id := toString 0, name := "alice", confidence := m,
               box := boxXYWH b, timestamp := env.faceTime } := by
      simp [processBox, hcrop, hembed, hmax, resolve_name, hgt, hsvm, hinv]
    have hflat : ([[b]] : List (List Box)).flatten = [b] := by simp
    rw [hflat, emitFrom_cons_some env b [] 0 _ hb]
    rfl

/-- Witness for C9: a single face with cosine similarity 4/5 to the
gallery row labelled alice is emitted with that name, that confidence and
the translated box. -/
theorem C9_witness :
    process_frame env1a = Except.ok
      [{ id := toString 0, name := "alice", confidence := Score.fin (16 / 25),
         box := boxXYWH box1, timestamp := env1a.faceTime }]
    ∧ ∃ bx, bx ∈ ([[box1]] : List (List Box)).flatten
        ∧ ({ id := toString 0, name := "alice", confidence := Score.fin (16 / 25),
             box := boxXYWH box1, timestamp := env1a.faceTime } : DetectedFace).box
            = boxXYWH bx := by
  have h2 := C9_box_translation.2 env1a box1 [1, 0] (Score.fin (16 / 25)) 0 rfl rfl
    (by decide) rfl
    (by norm_num [calculate_similarity, env1a, baseEnv, dot, normSq, mkScore, npMax, npMax2])
    (by norm_num [scoreGt, threshold, encodeReal]) rfl rfl
  exact ⟨h2, C9_box_translation.1 env1a [[box1]] _ _ rfl rfl h2 (by simp)⟩

/-- C10: the id of each emitted face is the decimal string of its position
in the faces list of the payload, so ids stay consecutive from zero even
when detected boxes are skipped along the way. -/
theorem C10_positional_ids (env : Env) (res : List (List Box)) (faces : List DetectedFace)
    (hc : env.cvtColorOk = true) (hd : env.detect = Except.ok res)
    (hpf : process_frame env = Except.ok faces) :
    ∀ (i : Nat) (f : DetectedFace), faces[i]? = some f → f.id = toString i := by
  intro i f h
  have h1 := process_frame_ok env res hc hd
  rw [hpf] at h1
  have h2 : faces = emitFrom env res.flatten 0 := by injection h1
  subst h2
  have h3 := emitFrom_id env res.flatten 0 i f h
  simpa using h3

/-- Witness for C10: in the three-box frame with its middle box skipped,
the face at position 1 has id 1. -/
theorem C10_witness :
    ({ id := toString 1, name := "Visitor", confidence := Score.fin 0,
       box := boxXYWH boxG2, timestamp := 111 } : DetectedFace).id = toString 1 :=
  C10_positional_ids env3 [[boxG1, boxB3, boxG2]] faces3 rfl rfl
    (by norm_num [process_frame, env3, baseEnv, step, processBox, boxG1, boxB3, boxG2,
      faces3, cropEmpty, sliceLen, calculate_similarity, dot, normSq, mkScore, npMax,
      npMax2, resolve_name, scoreGt, threshold, encodeReal, boxXYWH])
    1
    { id := toString 1, name := "Visitor", confidence := Score.fin 0,
      box := boxXYWH boxG2, timestamp := 111 }
    (by decide)

end FaceServer
